import Mathlib

/-!
Verification of the AstrBot extension runtime manager and task supervisor.

The definitions below are a shallow embedding of `src/util/plugin_util.py`
and of `AstrBotBootstrap.handle_task` / `run` in `src/astrbot/bootstrap.py`.
Filesystem, import machinery, git and pip are modelled as explicit oracle
functions carried in a `World` record; Python exceptions are modelled with
`Except String` / `Option String`; the plugin registry (`cached_plugins`,
a Python dict keyed by the plugin's declared name) is an association list
with unique keys, mutated by first-occurrence replace / delete, which
coincides with dict semantics on every reachable (duplicate-free) state.
-/

set_option autoImplicit false

namespace AstrBot

/-- One entry of `os.listdir(path)` at the plugin store root: its name,
whether `os.path.isdir` holds for it, and the file names it contains
(used for the `os.path.exists` checks inside `get_modules`). -/
structure DirEntry where
  name : String
  isDir : Bool
  files : List String
  deriving DecidableEq, Repr

/-- The dict `{"pname": d, "module": module_str}` produced by `get_modules`. -/
structure PluginMod where
  pname : String
  module : String
  deriving DecidableEq, Repr

/-- Embedding of `plugin_util.get_modules`: scan the immediate entries of the
store root; a directory with a `main.py` yields module name `main`, else a
directory containing a file named after itself yields that name, else the
directory is skipped (`continue`).  The redundant re-check before the
`modules.append` in the source is kept. -/
def get_modules_step (modules : List PluginMod) (d : DirEntry) : List PluginMod :=
  if d.isDir then
    match (if d.files.contains "main.py" then some "main"
           else if d.files.contains (d.name ++ ".py") then some d.name
           else none) with
    | none => modules
    | some module_str =>
      if d.files.contains "main.py" || d.files.contains (d.name ++ ".py") then
        modules ++ [{ pname := d.name, module := module_str }]
      else
        modules
  else modules

/-- Embedding of `plugin_util.get_modules` (the `for d in dirs` loop). -/
def get_modules (dirs : List DirEntry) : List PluginMod :=
  dirs.foldl get_modules_step []

/-- Spec-side description of discovery, written from the claim's words: for
each immediate subdirectory, moduleName `main` when an entry file named
`main` is present, else the directory's own name when a file so named is
present, else no descriptor.  Compared against `get_modules`. -/
def discover_spec (d : DirEntry) : Option PluginMod :=
  if d.isDir then
    if d.files.contains "main.py" then some { pname := d.name, module := "main" }
    else if d.files.contains (d.name ++ ".py") then some { pname := d.name, module := d.name }
    else none
  else none

/-- A Python value returned by an extension instance's `info()` call, as far
as `plugin_reload` inspects it: a dict with string keys and values, a string
(for which `k in info` is a substring test), or a value on which the `in`
operator raises `TypeError`. -/
inductive PyObj where
  | pdict (entries : List (String × String))
  | pstr (s : String)
  | pother
  deriving DecidableEq, Repr

/-- Python's `str.lower()` (per-character lowering, as the ASCII class
names involved require). -/
def pyLower (s : String) : String := String.mk (s.data.map Char.toLower)

/-- Python's `str.endswith(suffix)`. -/
def pyEndsWith (s suffix : String) : Bool := suffix.data.isSuffixOf s.data

/-- Contiguous-sublist test used to model `k in s` on strings. -/
def pySubstr (needle : List Char) : List Char → Bool
  | [] => needle.isEmpty
  | c :: t => needle.isPrefixOf (c :: t) || pySubstr needle t

/-- The Python membership test `k in info`, which may raise `TypeError`.
For a string, `k in s` is a substring test. -/
def pyContains : PyObj → String → Except String Bool
  | .pdict d, k => .ok (d.any (fun kv => kv.1 == k))
  | .pstr s, k => .ok (pySubstr k.data s.data)
  | .pother, _ => .error "TypeError: argument of type is not iterable"

/-- The check `isinstance(info, dict)`. -/
def isDict : PyObj → Bool
  | .pdict _ => true
  | _ => false

/-- Python subscription `info[k]` on a dict, `none` when the key is absent
(`KeyError`). -/
def getItem : PyObj → String → Option String
  | .pdict d, k => (d.find? (fun kv => kv.1 == k)).map (fun kv => kv.2)
  | _, _ => none

/-- The guard `'name' not in info or 'desc' not in info or 'version' not in
info or 'author' not in info`, with Python's left-to-right short-circuit
evaluation: `.ok true` when all four keys are present, `.ok false` when one
is missing, `.error` when a membership test raises. -/
def checkKeys (info : PyObj) : Except String Bool :=
  match pyContains info "name" with
  | .error e => .error e
  | .ok b1 =>
    if b1 = false then .ok false
    else match pyContains info "desc" with
      | .error e => .error e
      | .ok b2 =>
        if b2 = false then .ok false
        else match pyContains info "version" with
          | .error e => .error e
          | .ok b3 =>
            if b3 = false then .ok false
            else match pyContains info "author" with
              | .error e => .error e
              | .ok b4 => .ok b4

/-- `info` is a dict holding all four required metadata keys: exactly the
condition under which `plugin_reload` reaches the registry insertion. -/
def validInfoB (info : PyObj) : Bool :=
  match info with
  | .pdict d =>
    d.any (fun kv => kv.1 == "name") && d.any (fun kv => kv.1 == "desc") &&
    d.any (fun kv => kv.1 == "version") && d.any (fun kv => kv.1 == "author")
  | _ => false

/-- An instance of an extension's entry class: `instId` is a fresh tag
modelling Python object identity (each successful instantiation gets a new
one), `infoResult` is what the instance's `info()` call yields. -/
structure PluginInstance where
  instId : Nat
  infoResult : Except String PyObj

/-- A loaded Python module: `mid` models the module object's identity,
`classNames` the names produced by `inspect.getmembers(m, inspect.isclass)`
in enumeration order, and `instantiate c` the outcome of
`getattr(m, c)()` — `.error` when construction raises, `.ok r` an instance
whose `info()` call yields `r`. -/
structure PModule where
  mid : Nat
  classNames : List String
  instantiate : String → Except String (Except String PyObj)

/-- One registry value: the dict stored at `cached_plugins[info['name']]`. -/
structure RegEntry where
  module : PModule
  clsobj : PluginInstance
  info : PyObj
  name : String
  root_dir_name : String

/-- The `cached_plugins` dict, keyed by the plugin's declared name. -/
abbrev Registry := List (String × RegEntry)

/-- Dict read `r[k]`, first matching key. -/
def lookupKey {α : Type} : List (String × α) → String → Option α
  | [], _ => none
  | kv :: rest, k => if kv.1 = k then some kv.2 else lookupKey rest k

/-- Python's `k in r` on a dict. -/
def containsKey {α : Type} (r : List (String × α)) (k : String) : Bool :=
  (lookupKey r k).isSome

/-- Dict assignment `r[k] = v`: replace the existing entry in place, or
append a new one. -/
def setKey {α : Type} : List (String × α) → String → α → List (String × α)
  | [], k, v => [(k, v)]
  | kv :: rest, k, v => if kv.1 = k then (k, v) :: rest else kv :: setKey rest k v

/-- Dict deletion `del r[k]` (removes the entry for `k`; on the
duplicate-free lists a Python dict can reach, this is exact). -/
def delKey {α : Type} : List (String × α) → String → List (String × α)
  | [], _ => []
  | kv :: rest, k => if kv.1 = k then rest else kv :: delKey rest k

/-- The environment `plugin_util.py` interacts with: which candidate store
roots `os.path.exists` reports, the store roots' directory listings, and
oracles for `__import__`, `importlib.reload`, `git` pull, the
`requirements.txt` existence check, and the `pip` exit code. -/
structure World where
  addonsExists : Bool
  qqExists : Bool
  astrExists : Bool
  addonsDirs : List DirEntry
  qqDirs : List DirEntry
  importMod : String → Except String PModule
  reloadMod : PModule → Except String PModule
  pullResult : String → Except String Unit
  reqExists : String → Bool
  pipExit : String → Int

/-- Embedding of `get_plugin_store_path`: the first of the three candidate
roots that exists, else `FileNotFoundError`. -/
def get_plugin_store_path (w : World) : Except String String :=
  if w.addonsExists then .ok "addons/plugins"
  else if w.qqExists then .ok "QQChannelChatGPT/addons/plugins"
  else if w.astrExists then .ok "AstrBot/addons/plugins"
  else .error "插件文件夹不存在。"

/-- Embedding of `get_plugin_modules`: discovery over the first of the two
candidate roots that exists (note: unlike `get_plugin_store_path`, the
`AstrBot/` root is not consulted), `none` when neither exists.  The
`try/except BaseException: raise` wrapper in the source is the identity. -/
def get_plugin_modules (w : World) : Option (List PluginMod) :=
  if w.addonsExists then some (get_modules w.addonsDirs)
  else if w.qqExists then some (get_modules w.qqDirs)
  else none

/-- Embedding of `get_classes`: scan the class members in order and return
the first whose lowercased name ends in `plugin` or equals `main` (the
source appends it and immediately breaks, so at most one is returned). -/
def get_classes (p_name : String) : List String → List String
  | [] => []
  | name :: rest =>
    if pyEndsWith (pyLower name) "plugin" || pyLower name == "main" then [name]
    else get_classes p_name rest

/-- Mutable state threaded through `plugin_reload`'s `for plugin in plugins`
loop: the registry, the fresh-identity counter for new instances, and the
accumulated `fail_rec` diagnostics. -/
structure LoadState where
  cached : Registry
  cnt : Nat
  fail_rec : String

/-- The overall result of `plugin_reload`: final registry, identity counter,
and the returned pair `(success, diagnostics)`. -/
structure ReloadResult where
  cached : Registry
  cnt : Nat
  ok : Bool
  err : Option String

/-- The `target` comparison `p == target`: Python's `==` against `None` is
false. -/
def targetMatches : Option String → String → Bool
  | some t, p => p == t
  | none, _ => false

/-- The statements `module = __import__("addons.plugins."+root+"."+p,
fromlist=[p])` followed by `if p in cached_plugins: module =
importlib.reload(module)`. -/
def import_and_reload (w : World) (cached : Registry) (p root_dir_name : String) :
    Except String PModule :=
  match w.importMod ("addons.plugins." ++ root_dir_name ++ "." ++ p) with
  | .error e => .error e
  | .ok m => if containsKey cached p then w.reloadMod m else .ok m

/-- One iteration of `plugin_reload`'s `for plugin in plugins` loop, with
both `try` blocks made explicit.  Every failure path appends to `fail_rec`
and leaves the registry untouched (`continue`); only the fully successful
path executes `cached_plugins[info['name']] = {...}`.  `cls[0]` on an empty
`get_classes` result raises `IndexError`, caught by the outer handler; a
successful `getattr(module, cls[0])()` consumes one fresh instance
identity. -/
def reload_step (w : World) (target : Option String) (all : Bool)
    (st : LoadState) (plugin : PluginMod) : LoadState :=
  let p := plugin.module
  let root_dir_name := plugin.pname
  if !(containsKey st.cached p) || targetMatches target p || all then
    match import_and_reload w st.cached p root_dir_name with
    | .error e =>
      { st with fail_rec := st.fail_rec ++ "加载" ++ p ++ "插件出现问题，原因 " ++ e ++ "\n" }
    | .ok module =>
      match (get_classes p module.classNames).head? with
      | none =>
        { st with fail_rec :=
            st.fail_rec ++ "加载" ++ p ++ "插件出现问题，原因 list index out of range\n" }
      | some clsName =>
        match module.instantiate clsName with
        | .error e =>
          { st with fail_rec :=
              st.fail_rec ++ "加载" ++ p ++ "插件出现问题，原因 " ++ e ++ "\n" }
        | .ok infoRes =>
          let obj : PluginInstance := { instId := st.cnt, infoResult := infoRes }
          match infoRes with
          | .error e =>
            { st with
              cnt := st.cnt + 1
              fail_rec := st.fail_rec ++ "调用插件" ++ p ++ " info失败, 原因: " ++ e ++ "\n" }
          | .ok info =>
            match checkKeys info with
            | .error e =>
              { st with
                cnt := st.cnt + 1
                fail_rec := st.fail_rec ++ "调用插件" ++ p ++ " info失败, 原因: " ++ e ++ "\n" }
            | .ok false =>
              { st with
                cnt := st.cnt + 1
                fail_rec := st.fail_rec ++ "载入插件" ++ p ++ "失败，原因: 插件信息不完整\n" }
            | .ok true =>
              if isDict info = false then
                { st with
                  cnt := st.cnt + 1
                  fail_rec := st.fail_rec ++ "载入插件" ++ p ++ "失败，原因: 插件信息格式不正确\n" }
              else
                match getItem info "name" with
                | none =>
                  { st with
                    cnt := st.cnt + 1
                    fail_rec := st.fail_rec ++ "加载" ++ p ++ "插件出现问题，原因 KeyError\n" }
                | some nm =>
                  { cached := setKey st.cached nm
                      { module := module, clsobj := obj, info := info
                        name := nm, root_dir_name := root_dir_name }
                    cnt := st.cnt + 1
                    fail_rec := st.fail_rec }
  else st

/-- Embedding of `plugin_reload`: `(False, "未找到任何插件模块")` when
discovery finds no store, else fold the per-plugin step over every
discovered candidate and return `(True, None)` exactly when `fail_rec`
stayed empty. -/
def plugin_reload (w : World) (cached : Registry) (cnt : Nat)
    (target : Option String) (all : Bool) : ReloadResult :=
  match get_plugin_modules w with
  | none => { cached := cached, cnt := cnt, ok := false, err := some "未找到任何插件模块" }
  | some plugins =>
    let st := plugins.foldl (reload_step w target all)
      { cached := cached, cnt := cnt, fail_rec := "" }
    if st.fail_rec = "" then { cached := st.cached, cnt := st.cnt, ok := true, err := none }
    else { cached := st.cached, cnt := st.cnt, ok := false, err := some st.fail_rec }

/-- `os.path.join` for the two-component paths the source builds. -/
def pathJoin (a b : String) : String := a ++ "/" ++ b

/-- Outcome of one `shutil.rmtree` call: success, a `PermissionError`
carrying `str(e)`, or any other exception (uncaught by `remove_dir`). -/
inductive RmtreeOutcome (σ : Type) where
  | ok (s : σ)
  | permissionError (emsg : String) (s : σ)
  | fatal (emsg : String) (s : σ)

/-- The filesystem as `remove_dir` observes it: `pathExists` is
`os.path.exists`, `rmtree` the outcome of `shutil.rmtree`, and `chmod` the
state change of `os.chmod(path, stat.S_IWUSR)`. -/
structure RmFS (σ : Type) where
  pathExists : σ → String → Bool
  rmtree : σ → String → RmtreeOutcome σ
  chmod : σ → String → σ

/-- Structural helper for `errFilePathOf`: split a character list at its
first single-quote, returning the parts before and after it. -/
def takeUntilQuote : List Char → Option (List Char × List Char)
  | [] => none
  | c :: rest =>
    if c = '\x27' then some ([], rest)
    else
      match takeUntilQuote rest with
      | none => none
      | some (pre, post) => some (c :: pre, post)

/-- The expression `str(e).split("'", 2)[1]` of `remove_dir`'s
`PermissionError` handler: the text between the first and second single
quote of the message (or everything after a lone quote); `none` when the
message has no quote, in which case the subscription raises `IndexError`. -/
def errFilePathOf (emsg : String) : Option String :=
  match takeUntilQuote emsg.data with
  | none => none
  | some (_, rest) =>
    match takeUntilQuote rest with
    | none => some (String.mk rest)
    | some (mid, _) => some (String.mk mid)

/-- The `while try_cnt > 0` loop of `remove_dir`, on the remaining retry
budget.  A `PermissionError` handler parses `str(e).split("'", 2)[1]` (an
absent quote raises `IndexError`, which propagates), clears the read-only
bit of that file when it exists, and retries.  When the budget is exhausted
the Python function falls off the end, implicitly returning `None`,
modelled as `.ok none`. -/
def remove_dir_loop {σ : Type} (F : RmFS σ) (file_path : String) :
    Nat → σ → (Except String (Option Bool)) × σ
  | 0, s => (.ok none, s)
  | n + 1, s =>
    if F.pathExists s file_path = false then (.ok (some false), s)
    else
      match F.rmtree s file_path with
      | .ok s2 => (.ok (some true), s2)
      | .permissionError emsg s2 =>
        match errFilePathOf emsg with
        | none => (.error "IndexError: list index out of range", s2)
        | some err_file_path =>
          let s3 := if F.pathExists s2 err_file_path then F.chmod s2 err_file_path else s2
          remove_dir_loop F file_path n s3
      | .fatal emsg s2 => (.error emsg, s2)

/-- Embedding of `remove_dir`, with its 50-attempt budget. -/
def remove_dir {σ : Type} (F : RmFS σ) (s : σ) (file_path : String) :
    (Except String (Option Bool)) × σ :=
  remove_dir_loop F file_path 50 s

/-- Embedding of `uninstall_plugin`: raise when the name is absent,
otherwise read `root_dir_name`, resolve the store path, delete the registry
entry, then call `remove_dir`; a falsy `remove_dir` result (`False` or the
implicit `None`) raises the partial-success message with the registry
already cleaned.  The result's third component is `some msg` when the
Python function raises with message `msg`. -/
def uninstall_plugin {σ : Type} (w : World) (F : RmFS σ) (s : σ)
    (plugin_name : String) (cached : Registry) : Registry × σ × Option String :=
  match lookupKey cached plugin_name with
  | none => (cached, s, some "插件不存在。")
  | some entry =>
    match get_plugin_store_path w with
    | .error e => (cached, s, some e)
    | .ok ppath =>
      let cached2 := delKey cached plugin_name
      match remove_dir F s (pathJoin ppath entry.root_dir_name) with
      | (.ok r, s2) =>
        if r = some true then (cached2, s2, none)
        else (cached2, s2,
          some "移除插件成功，但是删除插件文件夹失败。您可以手动删除该文件夹，位于 addons/plugins/ 下。")
      | (.error e, s2) => (cached2, s2, some e)

/-- Embedding of `update_plugin`: raise when the name is absent, otherwise
resolve the store path and the plugin's directory, pull from the remote,
re-install dependencies when a `requirements.txt` exists (non-zero pip exit
raises), then re-run `plugin_reload` with the plugin's registry name as
target, raising its diagnostics on failure. -/
def update_plugin (w : World) (plugin_name : String) (cached : Registry) (cnt : Nat) :
    Registry × Nat × Option String :=
  match lookupKey cached plugin_name with
  | none => (cached, cnt, some "插件不存在。")
  | some entry =>
    match get_plugin_store_path w with
    | .error e => (cached, cnt, some e)
    | .ok ppath =>
      let plugin_path := pathJoin ppath entry.root_dir_name
      match w.pullResult plugin_path with
      | .error e => (cached, cnt, some e)
      | .ok _ =>
        if w.reqExists (pathJoin plugin_path "requirements.txt") && !(w.pipExit plugin_path == 0)
        then (cached, cnt, some "插件依赖安装失败, 需要您手动pip安装对应插件的依赖。")
        else
          let r := plugin_reload w cached cnt (some plugin_name) false
          if r.ok then (r.cached, r.cnt, none)
          else (r.cached, r.cnt, some (r.err.getD ""))

/-- The terminal outcome of awaiting one supervised task: normal completion
with a result, `asyncio.CancelledError`, or a raised exception —
`isExceptionSubclass` records whether it is an instance of `Exception` (a
`BaseException` such as `SystemExit` or `KeyboardInterrupt` is not). -/
inductive TaskOutcome (α : Type) where
  | completed (result : α)
  | cancelled
  | failed (isExceptionSubclass : Bool) (emsg : String)
  deriving DecidableEq, Repr

/-- A supervised unit of work: its task name and its eventual terminal
outcome. -/
structure SupvTask (α : Type) where
  name : String
  outcome : TaskOutcome α
  deriving DecidableEq, Repr

/-- Embedding of `AstrBotBootstrap.handle_task`: `await task` inside
`try`; normal completion returns the result, `except asyncio.CancelledError`
logs and returns `None`, `except Exception` logs and returns `None`; every
branch of the `while True` loop returns, so the loop body runs once.  An
exception that is not an `Exception` subclass (and not `CancelledError`)
matches no handler and is re-raised. -/
def handle_task {α : Type} (t : SupvTask α) : Except String (Option α) :=
  match t.outcome with
  | .completed r => .ok (some r)
  | .cancelled => .ok none
  | .failed true _ => .ok none
  | .failed false emsg => .error emsg

/-- Embedding of `await asyncio.gather(*[self.handle_task(task) for task in
tasks])` in `AstrBotBootstrap.run`, at the level of outcome aggregation:
gather completes with the list of every wrapped task's return value, unless
a wrapper itself raises, in which case that exception propagates to the
caller. -/
def gather_handle_tasks {α : Type} (tasks : List (SupvTask α)) :
    Except String (List (Option α)) :=
  tasks.mapM handle_task

/-- A task outcome that `handle_task`'s handlers cover. -/
def isHandled {α : Type} : TaskOutcome α → Bool
  | .failed false _ => false
  | _ => true

/-- The value `handle_task` hands back for a given outcome. -/
def supvResult {α : Type} : TaskOutcome α → Option α
  | .completed r => some r
  | _ => none

/-- The deletion of `file_path` eventually succeeds within the given retry
budget: at each attempt the path still exists, and `rmtree` either succeeds
now or raises a `PermissionError` whose message parses, after which the
retry (from the possibly-`chmod`ed state) succeeds within the smaller
budget.  This is the hypothesis of the claim about eventual success. -/
inductive DeletionSucceeds {σ : Type} (F : RmFS σ) (p : String) : Nat → σ → Prop
  | done (n : Nat) (s s2 : σ) :
      F.pathExists s p = true → F.rmtree s p = .ok s2 →
      DeletionSucceeds F p (n + 1) s
  | retry (n : Nat) (s s2 : σ) (emsg ef : String) :
      F.pathExists s p = true →
      F.rmtree s p = .permissionError emsg s2 →
      errFilePathOf emsg = some ef →
      DeletionSucceeds F p n (if F.pathExists s2 ef then F.chmod s2 ef else s2) →
      DeletionSucceeds F p (n + 1) s

/-- A filesystem on which the path always exists and every `rmtree` raises
`PermissionError` with a parsable message: `remove_dir`'s retry budget is
exhausted on it. -/
def exhaustFS : RmFS Unit :=
  { pathExists := fun _ _ => true
    rmtree := fun _ _ => .permissionError "denied: \x27b\x27" ()
    chmod := fun _ _ => () }

/-- A filesystem on which no path exists. -/
def noPathFS : RmFS Unit :=
  { pathExists := fun _ _ => false
    rmtree := fun _ _ => .fatal "unreachable" ()
    chmod := fun _ _ => () }

/-- A filesystem on which the path exists and the first `rmtree` succeeds. -/
def instantOkFS : RmFS Unit :=
  { pathExists := fun _ _ => true
    rmtree := fun _ _ => .ok ()
    chmod := fun _ _ => () }

/-- Metadata dict of the sample extension `A`: declared name `X` (different
from its module name `main`), all four required keys present. -/
def mainInfoX : PyObj :=
  .pdict [("name", "X"), ("desc", "d"), ("version", "1"), ("author", "a")]

/-- The sample module `addons.plugins.A.main`: one class `Main` whose
instances report `mainInfoX`. -/
def moduleA : PModule :=
  { mid := 7
    classNames := ["Main"]
    instantiate := fun c => if c == "Main" then .ok (.ok mainInfoX) else .error "AttributeError" }

/-- A store with the single extension directory `A` containing `main.py`,
whose import yields `moduleA`. -/
def storeWorldA : World :=
  { addonsExists := true, qqExists := false, astrExists := false
    addonsDirs := [{ name := "A", isDir := true, files := ["main.py"] }]
    qqDirs := []
    importMod := fun s =>
      if s == "addons.plugins.A.main" then .ok moduleA else .error "ModuleNotFoundError"
    reloadMod := fun m => .ok m
    pullResult := fun _ => .ok ()
    reqExists := fun _ => false
    pipExit := fun _ => 0 }

/-- The registry entry that the first batch reload of `storeWorldA` from an
empty registry produces. -/
def regEntryX : RegEntry :=
  { module := moduleA
    clsobj := { instId := 0, infoResult := .ok mainInfoX }
    info := mainInfoX
    name := "X"
    root_dir_name := "A" }

/-- A store whose root exists but whose only subdirectory has neither a
`main.py` nor a file named after itself: discovery yields zero
descriptors. -/
def emptyStoreWorld : World :=
  { storeWorldA with addonsDirs := [{ name := "C", isDir := true, files := [] }] }

/-- A world in which none of the candidate store roots exists. -/
def noStoreWorld : World :=
  { storeWorldA with addonsExists := false, qqExists := false, astrExists := false }

/-- A store with one discoverable extension whose import raises: every load
of it fails. -/
def badStoreWorld : World :=
  { storeWorldA with importMod := fun _ => .error "SyntaxError" }

/-- A registry entry standing for some previously loaded extension (its
metadata even lacks the required keys, so no successful load could have
produced an equal entry). -/
def oldEntry : RegEntry :=
  { module := moduleA
    clsobj := { instId := 99, infoResult := .error "gone" }
    info := .pstr "legacy"
    name := "Old"
    root_dir_name := "O" }

/-- A registry entry whose declared name equals its module name `main`, so
the batch-reload membership check finds it. -/
def mainKeyedEntry : RegEntry :=
  { module := moduleA
    clsobj := { instId := 5, infoResult := .ok mainInfoX }
    info := mainInfoX
    name := "main"
    root_dir_name := "A" }

theorem lookup_setKey {α : Type} (r : List (String × α)) (k k2 : String) (v : α) :
    lookupKey (setKey r k v) k2 = if k = k2 then some v else lookupKey r k2 := by
  induction r with
  | nil => simp [setKey, lookupKey]
  | cons kv rest ih =>
    simp only [setKey]
    by_cases h1 : kv.1 = k
    · rw [if_pos h1]
      by_cases h2 : k = k2
      · simp [lookupKey, h2]
      · have h3 : ¬ kv.1 = k2 := fun hh => h2 (h1.symm.trans hh)
        simp [lookupKey, h2, h3]
    · rw [if_neg h1]
      by_cases h2 : kv.1 = k2
      · have h3 : ¬ k = k2 := fun hh => h1 (h2.trans hh.symm)
        simp [lookupKey, h2, h3]
      · simp [lookupKey, h2, ih]

theorem lookup_eq_none_of_not_mem {α : Type} (r : List (String × α)) (k : String)
    (h : k ∉ r.map Prod.fst) : lookupKey r k = none := by
  induction r with
  | nil => simp [lookupKey]
  | cons kv rest ih =>
    simp only [List.map_cons, List.mem_cons, not_or] at h
    have h1 : ¬ kv.1 = k := fun he => h.1 he.symm
    simp [lookupKey, h1, ih h.2]

theorem lookup_delKey {α : Type} (r : List (String × α)) (k : String)
    (h : (r.map Prod.fst).Nodup) : lookupKey (delKey r k) k = none := by
  induction r with
  | nil => simp [delKey, lookupKey]
  | cons kv rest ih =>
    simp only [List.map_cons, List.nodup_cons] at h
    by_cases h1 : kv.1 = k
    · subst h1
      simp [delKey, lookup_eq_none_of_not_mem rest kv.1 h.1]
    · simp [delKey, lookupKey, h1, ih h.2]

theorem validInfo_of_checks (info : PyObj) (h1 : checkKeys info = .ok true)
    (h2 : isDict info = true) : validInfoB info = true := by
  cases info with
  | pdict d =>
    simp only [checkKeys, pyContains] at h1
    split_ifs at h1 <;> simp_all [validInfoB]
  | pstr s => simp [isDict] at h2
  | pother => simp [isDict] at h2

/-- The claim that discovery follows the main-first, own-name-second,
skip-otherwise convention for each immediate subdirectory: each
`get_modules_step` appends exactly the spec-side descriptor. -/
theorem get_modules_step_eq (acc : List PluginMod) (d : DirEntry) :
    get_modules_step acc d = acc ++ (discover_spec d).toList := by
  unfold get_modules_step discover_spec
  cases hd : d.isDir <;> simp
  by_cases h1 : "main.py" ∈ d.files <;>
    by_cases h2 : d.name ++ ".py" ∈ d.files <;> simp [h1, h2]

theorem get_modules_foldl (dirs : List DirEntry) (acc : List PluginMod) :
    dirs.foldl get_modules_step acc = acc ++ dirs.filterMap discover_spec := by
  induction dirs generalizing acc with
  | nil => simp
  | cons d rest ih =>
    simp only [List.foldl_cons, List.filterMap_cons]
    rw [get_modules_step_eq]
    cases h : discover_spec d <;> simp [ih]

/-- C7: for every immediate subdirectory of the store root, discovery
yields the descriptor with module name `main` when an entry file `main.py`
is present, else the descriptor named after the subdirectory when a file so
named is present, else no descriptor (the directory is skipped); and
discovery is exactly a one-level `filterMap` over the root's immediate
entries, so it never recurses deeper. -/
theorem discovery_matches_naming_convention (dirs : List DirEntry) :
    get_modules dirs = dirs.filterMap discover_spec := by
  unfold get_modules
  simpa using get_modules_foldl dirs []

/-- C9: `remove_dir` on a path that does not exist returns `False` without
raising, and whenever recursive deletion eventually succeeds within the
50-attempt budget it returns `True`. -/
theorem remove_dir_false_on_missing_true_on_success :
    (∀ (σ : Type) (F : RmFS σ) (s : σ) (p : String),
      F.pathExists s p = false → remove_dir F s p = (.ok (some false), s)) ∧
    (∀ (σ : Type) (F : RmFS σ) (s : σ) (p : String),
      DeletionSucceeds F p 50 s → (remove_dir F s p).1 = .ok (some true)) := by
  constructor
  · intro σ F s p h
    simp [remove_dir, remove_dir_loop, h]
  · intro σ F s p h
    suffices hgen : ∀ (n : Nat) (s2 : σ), DeletionSucceeds F p n s2 →
        (remove_dir_loop F p n s2).1 = .ok (some true) by
      exact hgen 50 s h
    intro n s2 h2
    induction h2 with
    | done n s3 s4 hex hrm =>
      simp [remove_dir_loop, hex, hrm]
    | retry n s3 s4 emsg ef hex hrm hparse htail ih =>
      simp only [remove_dir_loop, hex]
      simp only [hrm, hparse]
      exact ih

/-- C9 witness: on a one-point filesystem without the path, `remove_dir`
returns `False`; on one where the first `rmtree` succeeds, it returns
`True`. -/
theorem remove_dir_false_on_missing_true_on_success_witness :
    remove_dir noPathFS () "addons/plugins/A" = (.ok (some false), ()) ∧
    (remove_dir instantOkFS () "addons/plugins/A").1 = .ok (some true) :=
  ⟨remove_dir_false_on_missing_true_on_success.1 Unit noPathFS () "addons/plugins/A" rfl,
   remove_dir_false_on_missing_true_on_success.2 Unit instantOkFS () "addons/plugins/A"
     (DeletionSucceeds.done 49 () () rfl rfl)⟩

/-- C8 counterexample: on a filesystem where the path always exists and
every deletion attempt raises a permission error, `remove_dir` exhausts its
50 attempts and the Python function falls off the end of the `while` loop,
implicitly returning `None` (modelled `.ok none`) — not the explicit
Boolean failure value `False` (`.ok (some false)`) and not an exception, so
the claim that exhaustion "returns an explicit failure value rather than
falling through silently without a result" is false on the code. -/
theorem remove_dir_exhaustion_counterexample :
    (remove_dir exhaustFS () "addons/plugins/A").1 = .ok none ∧
    Except.ok (none : Option Bool) ≠ (Except.ok (some false) : Except String (Option Bool)) ∧
    Except.ok (none : Option Bool) ≠ (Except.ok (some true) : Except String (Option Bool)) := by
  refine ⟨?_, by simp, by simp⟩
  rfl

/-- C8 amended: when `remove_dir` exhausts its 50-attempt retry budget (the
path exists at every attempt and every deletion attempt raises a
permission error with a parsable message), it falls through the end of the
loop and implicitly returns `None` — a falsy but non-explicit result —
rather than the explicit failure value `False` or an exception. -/
theorem remove_dir_exhaustion_returns_implicit_none {σ : Type} (F : RmFS σ) (s : σ)
    (p : String)
    (h1 : ∀ (s2 : σ) (q : String), F.pathExists s2 q = true)
    (h2 : ∀ s2 : σ, ∃ (emsg : String) (s3 : σ) (ef : String),
      F.rmtree s2 p = .permissionError emsg s3 ∧ errFilePathOf emsg = some ef) :
    ∃ s4 : σ, remove_dir F s p = (.ok none, s4) := by
  suffices hgen : ∀ (n : Nat) (s2 : σ), ∃ s4 : σ,
      remove_dir_loop F p n s2 = (.ok none, s4) by
    exact hgen 50 s
  intro n
  induction n with
  | zero => intro s2; exact ⟨s2, rfl⟩
  | succ m ih =>
    intro s2
    obtain ⟨emsg, s3, ef, hrm, hparse⟩ := h2 s2
    simp only [remove_dir_loop, h1 s2 p]
    simp only [hrm, hparse]
    exact ih _

/-- C8 amended witness: the always-denied filesystem satisfies both
hypotheses, and on it the exhausted `remove_dir` yields the implicit
`None`. -/
theorem remove_dir_exhaustion_returns_implicit_none_witness :
    ∃ s4 : Unit, remove_dir exhaustFS () "addons/plugins/A" = (.ok none, s4) :=
  remove_dir_exhaustion_returns_implicit_none exhaustFS () "addons/plugins/A"
    (fun _ _ => rfl) (fun _ => ⟨"denied: \x27b\x27", (), "b", rfl, rfl⟩)

/-- C1 counterexample: a supervised task whose awaited outcome is a failure
that is not an `Exception` subclass (for example `SystemExit` raised by
`sys.exit()` inside the task) matches neither the `except
asyncio.CancelledError` nor the `except Exception` handler of
`handle_task`, so `handle_task` re-raises instead of returning normally —
refuting the claim for the outcome space it quantifies over ("any other
failure"). -/
theorem handle_task_reraises_base_exception :
    handle_task (α := Nat) { name := "platform", outcome := .failed false "SystemExit" } =
      .error "SystemExit" := rfl

/-- C1 amended: for every supervised task whose awaited outcome is normal
completion, cancellation, or a failure that is an instance of `Exception`,
`handle_task` returns normally (the task's result on normal completion,
`None` otherwise) without re-raising, so gathering `handle_task` over any
set of such units completes with one processed outcome per unit and
propagates no unit's failure or cancellation; only a failure outside the
`Exception` hierarchy (e.g. `SystemExit`) escapes, because the source
catches `Exception`, not `BaseException`. -/
theorem gather_handle_tasks_absorbs_handled_outcomes {α : Type}
    (tasks : List (SupvTask α)) (h : ∀ t ∈ tasks, isHandled t.outcome = true) :
    gather_handle_tasks tasks = .ok (tasks.map (fun t => supvResult t.outcome)) := by
  induction tasks with
  | nil => rfl
  | cons t rest ih =>
    have ht : isHandled t.outcome = true := h t (List.mem_cons_self t rest)
    have hrest := ih (fun u hu => h u (List.mem_cons_of_mem t hu))
    have hstep : handle_task t = .ok (supvResult t.outcome) := by
      cases hout : t.outcome with
      | completed r => simp [handle_task, supvResult, hout]
      | cancelled => simp [handle_task, supvResult, hout]
      | failed b emsg =>
        cases b with
        | true => simp [handle_task, supvResult, hout]
        | false => rw [hout] at ht; simp [isHandled] at ht
    simp only [gather_handle_tasks, List.mapM_cons] at *
    rw [hstep, hrest]
    rfl

/-- C1 amended witness: the spec's three-unit example — one unit raises an
ordinary exception, one is cancelled, one completes normally — gathers to
one processed outcome per unit with nothing rethrown. -/
theorem gather_handle_tasks_absorbs_handled_outcomes_witness :
    gather_handle_tasks (α := Nat)
      [{ name := "a", outcome := .failed true "boom" },
       { name := "b", outcome := .cancelled },
       { name := "c", outcome := .completed 42 }] = .ok [none, none, some 42] := by
  have h := gather_handle_tasks_absorbs_handled_outcomes (α := Nat)
    [{ name := "a", outcome := .failed true "boom" },
     { name := "b", outcome := .cancelled },
     { name := "c", outcome := .completed 42 }] (by decide)
  simpa using h

/-- C2 counterexample: a store whose root exists but in which discovery
yields zero extension descriptors (its only subdirectory has no entry
file).  `plugin_reload` returns `(True, None)` — vacuous success — instead
of the claimed `success = false` with a "no extensions found" diagnostic:
the distinct failure is produced only when no store root exists at all. -/
theorem plugin_reload_empty_store_counterexample :
    get_plugin_modules emptyStoreWorld = some [] ∧
    (plugin_reload emptyStoreWorld [] 0 none false).ok = true ∧
    (plugin_reload emptyStoreWorld [] 0 none false).err = none :=
  ⟨rfl, rfl, rfl⟩

/-- C2 amended: `plugin_reload` returns the distinct failure `(False,
"未找到任何插件模块")` exactly when no plugin store directory exists
(discovery returns `None`); when a store root exists but discovery yields
zero descriptors, the batch loop runs over nothing, accumulates no
diagnostics, and returns vacuous success `(True, None)`. -/
theorem plugin_reload_failure_only_when_store_missing (w : World) (cached : Registry)
    (cnt : Nat) (target : Option String) (all : Bool) :
    (get_plugin_modules w = none →
      plugin_reload w cached cnt target all =
        { cached := cached, cnt := cnt, ok := false, err := some "未找到任何插件模块" }) ∧
    (get_plugin_modules w = some [] →
      plugin_reload w cached cnt target all =
        { cached := cached, cnt := cnt, ok := true, err := none }) := by
  constructor
  · intro h
    simp [plugin_reload, h]
  · intro h
    simp [plugin_reload, h]

/-- C2 amended witness: with no store root the distinct failure is
returned, and with an existing root holding zero discoverable extensions
the call returns vacuous success. -/
theorem plugin_reload_failure_only_when_store_missing_witness :
    plugin_reload noStoreWorld [] 0 none false =
      { cached := [], cnt := 0, ok := false, err := some "未找到任何插件模块" } ∧
    plugin_reload emptyStoreWorld [] 0 none false =
      { cached := [], cnt := 0, ok := true, err := none } :=
  ⟨(plugin_reload_failure_only_when_store_missing noStoreWorld [] 0 none false).1 rfl,
   (plugin_reload_failure_only_when_store_missing emptyStoreWorld [] 0 none false).2 rfl⟩

theorem reload_step_cached_or (w : World) (target : Option String) (all : Bool)
    (st : LoadState) (pl : PluginMod) :
    (reload_step w target all st pl).cached = st.cached ∨
    ∃ (nm : String) (e2 : RegEntry), validInfoB e2.info = true ∧
      (reload_step w target all st pl).cached = setKey st.cached nm e2 := by
  unfold reload_step
  dsimp only
  split
  · split
    · left; rfl
    · split
      · left; rfl
      · split
        · left; rfl
        · split
          · left; rfl
          · split
            · left; rfl
            · left; rfl
            · split
              · left; rfl
              · split
                · left; rfl
                · refine Or.inr ⟨_, _, ?_, rfl⟩
                  exact validInfo_of_checks _ (by assumption) (by simp_all)
  · left; rfl

theorem foldl_reload_lookup (w : World) (target : Option String) (all : Bool) :
    ∀ (plugins : List PluginMod) (st : LoadState) (k : String) (e : RegEntry),
      lookupKey (plugins.foldl (reload_step w target all) st).cached k = some e →
      lookupKey st.cached k = some e ∨ validInfoB e.info = true := by
  intro plugins
  induction plugins with
  | nil => intro st k e h; exact Or.inl h
  | cons pl rest ih =>
    intro st k e h
    rcases ih (reload_step w target all st pl) k e h with h1 | h1
    · rcases reload_step_cached_or w target all st pl with h2 | ⟨nm, e2, hval, h2⟩
      · rw [h2] at h1; exact Or.inl h1
      · rw [h2, lookup_setKey] at h1
        by_cases hk : nm = k
        · rw [if_pos hk] at h1
          injection h1 with h3
          exact Or.inr (h3 ▸ hval)
        · rw [if_neg hk] at h1; exact Or.inl h1
    · exact Or.inr h1

theorem foldl_reload_preserve (w : World) (target : Option String) (all : Bool) :
    ∀ (plugins : List PluginMod) (st : LoadState) (k : String) (e : RegEntry),
      lookupKey st.cached k = some e →
      ∃ e2, lookupKey (plugins.foldl (reload_step w target all) st).cached k = some e2 ∧
        (e2 = e ∨ validInfoB e2.info = true) := by
  intro plugins
  induction plugins with
  | nil => intro st k e h; exact ⟨e, h, Or.inl rfl⟩
  | cons pl rest ih =>
    intro st k e h
    rcases reload_step_cached_or w target all st pl with h2 | ⟨nm, e2, hval, h2⟩
    · exact ih (reload_step w target all st pl) k e (by rw [h2]; exact h)
    · by_cases hk : nm = k
      · have hstep : lookupKey (reload_step w target all st pl).cached k = some e2 := by
          rw [h2, lookup_setKey, if_pos hk]
        rcases ih (reload_step w target all st pl) k e2 hstep with ⟨e3, h3, h4⟩
        refine ⟨e3, h3, Or.inr ?_⟩
        rcases h4 with h4 | h4
        · rw [h4]; exact hval
        · exact h4
      · have hstep : lookupKey (reload_step w target all st pl).cached k = some e := by
          rw [h2, lookup_setKey, if_neg hk]; exact h
        exact ih (reload_step w target all st pl) k e hstep

theorem reload_step_skip (w : World) (st : LoadState) (pl : PluginMod)
    (h : containsKey st.cached pl.module = true) :
    reload_step w none false st pl = st := by
  unfold reload_step
  simp [h, targetMatches]

theorem foldl_reload_skip (w : World) :
    ∀ (plugins : List PluginMod) (st : LoadState),
      (∀ m ∈ plugins, containsKey st.cached m.module = true) →
      plugins.foldl (reload_step w none false) st = st := by
  intro plugins
  induction plugins with
  | nil => intro st _; rfl
  | cons pl rest ih =>
    intro st h
    rw [List.foldl_cons, reload_step_skip w st pl (h pl (List.mem_cons_self pl rest))]
    exact ih st (fun m hm => h m (List.mem_cons_of_mem pl hm))

/-- C4: every entry of the registry after a `plugin_reload` call either was
already present (with the same value) beforehand or was inserted by the
call, and an inserted entry's `info()` value is a dict containing all four
keys `name`, `desc`, `version`, `author` — so an extension whose metadata
omits `version` (or any required key, or is not a dict) is never inserted
and, unless it was registered before the call, is absent afterwards. -/
theorem registry_insertion_requires_valid_metadata (w : World) (cached : Registry)
    (cnt : Nat) (target : Option String) (all : Bool) (k : String) (e : RegEntry)
    (h : lookupKey (plugin_reload w cached cnt target all).cached k = some e) :
    lookupKey cached k = some e ∨ validInfoB e.info = true := by
  unfold plugin_reload at h
  cases hgm : get_plugin_modules w with
  | none => rw [hgm] at h; exact Or.inl h
  | some plugins =>
    rw [hgm] at h
    dsimp only at h
    split at h <;>
      exact foldl_reload_lookup w target all plugins
        { cached := cached, cnt := cnt, fail_rec := "" } k e h

/-- C4 witness: loading the valid sample store from an empty registry
inserts the entry for declared name `X`; the theorem applied to it yields
that the entry's metadata is a dict with all four keys. -/
theorem registry_insertion_requires_valid_metadata_witness :
    lookupKey ([] : Registry) "X" = some regEntryX ∨ validInfoB regEntryX.info = true :=
  registry_insertion_requires_valid_metadata storeWorldA [] 0 none false "X" regEntryX rfl

/-- C6: a batch `plugin_reload` never removes an already-registered entry:
every entry present before the call is still present afterwards, either
unchanged or replaced by a fully successful load (whose metadata passed
validation).  Per-extension failures only append to the batch diagnostics
and leave the registry untouched, and the fold continues over the
remaining candidates. -/
theorem reload_failure_preserves_registry (w : World) (cached : Registry)
    (cnt : Nat) (target : Option String) (all : Bool) (k : String) (e : RegEntry)
    (h : lookupKey cached k = some e) :
    ∃ e2, lookupKey (plugin_reload w cached cnt target all).cached k = some e2 ∧
      (e2 = e ∨ validInfoB e2.info = true) := by
  unfold plugin_reload
  cases hgm : get_plugin_modules w with
  | none => exact ⟨e, h, Or.inl rfl⟩
  | some plugins =>
    dsimp only
    split <;>
      exact foldl_reload_preserve w target all plugins
        { cached := cached, cnt := cnt, fail_rec := "" } k e h

/-- C6 witness: a store whose only discoverable extension fails to import
is reloaded against a registry holding the unrelated entry `Old`; the
theorem applied there shows the entry survives. -/
theorem reload_failure_preserves_registry_witness :
    ∃ e2, lookupKey (plugin_reload badStoreWorld [("Old", oldEntry)] 0 none false).cached
        "Old" = some e2 ∧ (e2 = oldEntry ∨ validInfoB e2.info = true) :=
  reload_failure_preserves_registry badStoreWorld [("Old", oldEntry)] 0 none false
    "Old" oldEntry rfl

/-- C3 counterexample: on a store with one extension (module name `main`,
declared metadata name `X`), the first batch reload from an empty registry
succeeds and registers `X` with instance identity 0; running the same batch
reload again (target `None`, `all` `False`) re-imports and re-instantiates
it, replacing the registry entry with a fresh instance object (identity 1).
The second reload is not a silent no-op, because the already-loaded check
`p not in cached_plugins` looks up the module name `main` in a registry
keyed by the declared name `X`. -/
theorem second_reload_replaces_instance_counterexample :
    (plugin_reload storeWorldA [] 0 none false).ok = true ∧
    (lookupKey (plugin_reload storeWorldA [] 0 none false).cached "X").map
      (fun e => e.clsobj.instId) = some 0 ∧
    (lookupKey (plugin_reload storeWorldA
        (plugin_reload storeWorldA [] 0 none false).cached
        (plugin_reload storeWorldA [] 0 none false).cnt none false).cached "X").map
      (fun e => e.clsobj.instId) = some 1 :=
  ⟨rfl, rfl, rfl⟩

/-- C3 amended: a batch `plugin_reload` with target `None` and `all` `False`
is a silent no-op — registry left identical, `(True, None)` returned —
exactly on those discovered extensions whose module name is a key of the
registry; since entries are keyed by declared metadata name, an extension
whose declared name differs from its module name is instead re-imported and
re-registered with a fresh instance object on the second run. -/
theorem batch_reload_noop_iff_module_name_registered (w : World) (cached : Registry)
    (cnt : Nat) (plugins : List PluginMod)
    (h1 : get_plugin_modules w = some plugins)
    (h2 : ∀ m ∈ plugins, containsKey cached m.module = true) :
    plugin_reload w cached cnt none false =
      { cached := cached, cnt := cnt, ok := true, err := none } := by
  unfold plugin_reload
  rw [h1]
  dsimp only
  rw [foldl_reload_skip w plugins { cached := cached, cnt := cnt, fail_rec := "" } h2]
  simp

/-- C3 amended witness: when the single discovered extension's module name
`main` is itself a registry key, the second batch reload leaves the
registry identical. -/
theorem batch_reload_noop_iff_module_name_registered_witness :
    plugin_reload storeWorldA [("main", mainKeyedEntry)] 3 none false =
      { cached := [("main", mainKeyedEntry)], cnt := 3, ok := true, err := none } :=
  batch_reload_noop_iff_module_name_registered storeWorldA [("main", mainKeyedEntry)] 3
    [{ pname := "A", module := "main" }] rfl
    (by intro m hm; simp at hm; subst hm; rfl)

/-- C5: for a name present in the registry (and a resolvable store path),
`uninstall_plugin` executes `del cached_plugins[plugin_name]` before calling
`remove_dir`, so the entry is absent from the resulting registry whatever
the storage deletion returns — success, falsy failure, or a raised
exception — and when the deletion result is not `True` the operation
raises the partial-success message over the already-clean registry. -/
theorem uninstall_removes_entry_before_storage_deletion {σ : Type} (w : World)
    (F : RmFS σ) (s : σ) (name : String) (cached : Registry) (entry : RegEntry)
    (ppath : String)
    (hnodup : (cached.map Prod.fst).Nodup)
    (hmem : lookupKey cached name = some entry)
    (hsp : get_plugin_store_path w = .ok ppath) :
    lookupKey (uninstall_plugin w F s name cached).1 name = none ∧
    (∀ (r : Option Bool) (s2 : σ),
      remove_dir F s (pathJoin ppath entry.root_dir_name) = (.ok r, s2) → r ≠ some true →
      (uninstall_plugin w F s name cached).2.2 =
        some "移除插件成功，但是删除插件文件夹失败。您可以手动删除该文件夹，位于 addons/plugins/ 下。") := by
  constructor
  · unfold uninstall_plugin
    rw [hmem, hsp]
    dsimp only
    rcases hrm : remove_dir F s (pathJoin ppath entry.root_dir_name) with ⟨res, s2⟩
    cases res with
    | ok r => by_cases hr : r = some true <;> simp [hr, lookup_delKey cached name hnodup]
    | error e => simp [lookup_delKey cached name hnodup]
  · intro r s2 hrm hr
    unfold uninstall_plugin
    rw [hmem, hsp]
    dsimp only
    rw [hrm]
    simp [hr]

/-- C5 witness: uninstalling `X` while its storage deletion fails (the
directory is reported missing, so `remove_dir` returns `False`) still
removes the registry entry and raises the partial-success message. -/
theorem uninstall_removes_entry_before_storage_deletion_witness :
    lookupKey (uninstall_plugin storeWorldA noPathFS () "X" [("X", regEntryX)]).1 "X" =
      none ∧
    (uninstall_plugin storeWorldA noPathFS () "X" [("X", regEntryX)]).2.2 =
      some "移除插件成功，但是删除插件文件夹失败。您可以手动删除该文件夹，位于 addons/plugins/ 下。" :=
  have h := uninstall_removes_entry_before_storage_deletion storeWorldA noPathFS ()
    "X" [("X", regEntryX)] regEntryX "addons/plugins" (by decide) rfl rfl
  ⟨h.1, h.2 (some false) () rfl (by decide)⟩

/-- C10: for a name absent from the registry, both `update_plugin` and
`uninstall_plugin` raise `插件不存在。` ("extension not found") from their
first statement: the registry is returned exactly as it was and no storage,
git, pip or reload operation is attempted (the filesystem state is
untouched). -/
theorem missing_extension_error_is_atomic {σ : Type} (w : World) (F : RmFS σ) (s : σ)
    (name : String) (cached : Registry) (cnt : Nat)
    (h : lookupKey cached name = none) :
    uninstall_plugin w F s name cached = (cached, s, some "插件不存在。") ∧
    update_plugin w name cached cnt = (cached, cnt, some "插件不存在。") := by
  constructor
  · unfold uninstall_plugin; rw [h]
  · unfold update_plugin; rw [h]

/-- C10 witness: updating or uninstalling the unregistered name `ghost`
raises "extension not found" and leaves the registry and filesystem
unchanged. -/
theorem missing_extension_error_is_atomic_witness :
    uninstall_plugin storeWorldA noPathFS () "ghost" [("X", regEntryX)] =
      ([("X", regEntryX)], (), some "插件不存在。") ∧
    update_plugin storeWorldA "ghost" [("X", regEntryX)] 1 =
      ([("X", regEntryX)], 1, some "插件不存在。") :=
  missing_extension_error_is_atomic storeWorldA noPathFS () "ghost"
    [("X", regEntryX)] 1 rfl

end AstrBot
